import Mathlib

/-!
Verification of the TradingView→OKX order pipeline (`app.py`).

The source file concatenates two revisions of the program; Python executes
it top to bottom, so the later (second-half) definitions shadow the earlier
ones.  The definitions below embed the *effective* (second-half) code:
`normalize_size` (lines 313–329), `validate_webhook_token` (508–511),
`parse_tradingview_webhook` (514–549), `OKXTrader.sign_request` (352–367),
`get_account_config` (369–383), `get_instrument_info` (385–401),
`get_positions` (420–432), `close_position` (434–452), `place_order`
(454–505) and the `/webhook` route (556–587).

Python `Decimal` arithmetic is modelled by exact rationals (`ℚ`); the
28-significant-digit context rounding of `Decimal` division is not
modelled (it is exact on all inputs considered here).  Network calls are
modelled by an explicit `World` of responses plus a trace of `NetCall`s.
-/

/-- `Decimal.quantize(Decimal('1'), rounding=ROUND_HALF_UP)`: round to the
nearest integer, ties away from zero. -/
def roundHalfUp (q : ℚ) : ℤ :=
  if 0 ≤ q then ⌊q + 1/2⌋ else -⌊-q + 1/2⌋

/-- `normalize_size(amount, lot_size, min_size)` (app.py lines 313–329):
clamp to `min_size`, round the quotient by `lot_size` half-up, force at
least one lot, and return the resulting multiple of `lot_size`. -/
def normalize_size (amount lot_size min_size : ℚ) : ℚ :=
  let amt := if amount < min_size then min_size else amount
  let multiples := roundHalfUp (amt / lot_size)
  let multiples := if multiples ≤ 0 then 1 else multiples
  (multiples : ℚ) * lot_size

/-- `validate_webhook_token(token)` (app.py lines 508–511).  `env_token`
models `os.getenv('WEBHOOK_TOKEN')`sentinel: `none` when the variable is
unset, in which case the default `"test123"` is used. -/
def validate_webhook_token (env_token : Option String) (token : String) : Bool :=
  let expected_token := env_token.getD "test123"
  token == expected_token && token != "change-me"

/-- `str.upper()` restricted to ASCII, written structurally over the
character list so that it evaluates by kernel reduction. -/
def strToUpper (s : String) : String := ⟨s.data.map Char.toUpper⟩

/-- `str.lower()` restricted to ASCII, written structurally over the
character list so that it evaluates by kernel reduction. -/
def strToLower (s : String) : String := ⟨s.data.map Char.toLower⟩

/-- `str.endswith(post)`, written structurally over the character lists so
that it evaluates by kernel reduction. -/
def strEndsWith (s post : String) : Bool := List.isSuffixOf post.data s.data

/-- Symbol normalization inside `parse_tradingview_webhook` (app.py lines
525–528): append `"-SWAP"` when the default market is swap, the symbol is a
nonempty string, is not the sentinel `"NONE"` (case-insensitive) and does
not already end in `"-SWAP"`. -/
def normalizeSymbol (default_market sym : String) : String :=
  if sym != "" && strToUpper sym != "NONE" then
    if default_market == "swap" && !(strEndsWith sym "-SWAP") then sym ++ "-SWAP" else sym
  else sym

/-- Network calls the pipeline can make, in the order they are issued. -/
inductive NetCall where
  | timeGet
  | instrumentsGet (symbol : String)
  | accountConfigGet
  | positionsGet (symbol : String)
  | orderPost (instId tdMode side ordType : String) (sz : ℚ)
      (posSide : Option String) (px : Option ℚ)
deriving DecidableEq

/-- Credentials loaded from the environment (`OKXTrader.__init__`); each of
the three signing fields may be unset (`None`). -/
structure Creds where
  api_key : Option String
  secret_key : Option String
  passphrase : Option String
  simulated : String
deriving DecidableEq

/-- Trader configuration from the environment. -/
structure TraderCfg where
  creds : Creds
  default_tdmode : String
  default_market : String
deriving DecidableEq

/-- Instrument metadata extracted from a successful
`/api/v5/public/instruments` response (`data[0]`). -/
structure InstInfo where
  lotSz : ℚ
  minSz : ℚ
deriving DecidableEq

/-- One entry of a positions response: `instId`, `posSide`, `pos` (signed
size) and the optional `mgnMode` field. -/
structure Position where
  instId : String
  posSide : String
  pos : ℚ
  mgnMode : Option String
deriving DecidableEq

/-- Parsed JSON of a positions query; transport exceptions are represented
by a response whose `code` is `"error"`, as produced by `get_positions`. -/
structure PositionsResp where
  code : String
  msg : String
  data : List Position
deriving DecidableEq

/-- The `code`/`msg` pair of a venue order response (or of the local error
dictionaries the code fabricates on failure). -/
structure OrderRes where
  code : String
  msg : String
deriving DecidableEq

/-- The headers produced by `sign_request`.  The HMAC-SHA256 signature is
abstracted as the pair of its inputs (`hmacSecret`, `signMessage`), which
determines it. -/
structure SignedHeaders where
  key : Option String
  hmacSecret : String
  signMessage : String
  timestamp : String
  passphrase : Option String
  simulatedMarker : Bool
deriving DecidableEq

/-- Oracle for the outcomes of the network calls one pipeline invocation
makes: the timestamp string, the parsed instrument lookup, the parsed
account config (`some posMode?` on success), the positions response, and
the order POST outcome (`Except.error e` models a transport exception with
message `e`). -/
structure World where
  ts : String
  instResp : Option InstInfo
  accCfg : Option (Option String)
  posResp : PositionsResp
  orderResp : Except String (String × String)

/-- A `place_order` invocation as made by its callers (arguments of the
call, before any normalization inside `place_order`). -/
structure OrderCall where
  symbol : String
  side : String
  amount : ℚ
  price : Option ℚ
  order_type : String
  td_mode : Option String
deriving DecidableEq

/-- `OKXTrader.sign_request` (app.py lines 352–367), the effective second
definition: no credential pre-check; `get_timestamp` (one network attempt,
falling back to the local clock) runs first, then
`self.secret_key.encode()` raises `AttributeError` iff the secret is
`None`.  A missing api key or passphrase is passed through as `None`. -/
def sign_request (c : Creds) (ts method path body : String) :
    List NetCall × Option SignedHeaders :=
  ([NetCall.timeGet],
    match c.secret_key with
    | none => none
    | some secret =>
        some { key := c.api_key
               hmacSecret := secret
               signMessage := ts ++ method ++ path ++ body
               timestamp := ts
               passphrase := c.passphrase
               simulatedMarker := c.simulated == "1" })

/-- `OKXTrader.get_instrument_info` (app.py lines 385–401), the effective
second definition: a single GET of the filtered instruments endpoint, whose
parsed outcome (`data[0]` on `code == "0"`, otherwise `None`) is the world's
`instResp`.  There is no retry and no list fallback in this definition. -/
def get_instrument_info (w : World) (symbol : String) :
    List NetCall × Option InstInfo :=
  ([NetCall.instrumentsGet symbol], w.instResp)

/-- `OKXTrader.get_account_config` (app.py lines 369–383): `sign_request`
runs outside the `try`, so a missing secret raises out of the function
(`Except.error ()`); otherwise the signed GET's parsed outcome is the
world's `accCfg` (`None` on any fetch/parse failure). -/
def get_account_config (c : Creds) (w : World) :
    List NetCall × Except Unit (Option (Option String)) :=
  match sign_request c w.ts "GET" "/api/v5/account/config" "" with
  | (scalls, none) => (scalls, Except.error ())
  | (scalls, some _) => (scalls ++ [NetCall.accountConfigGet], Except.ok w.accCfg)

/-- `OKXTrader.get_positions` (app.py lines 420–432): `sign_request` runs
outside the `try`; the GET's parsed outcome is the world's `posResp` (a
transport exception is a `code = "error"` response). -/
def get_positions (c : Creds) (w : World) (symbol : String) :
    List NetCall × Except Unit PositionsResp :=
  match sign_request c w.ts "GET" ("/api/v5/account/positions?instId=" ++ symbol) "" with
  | (scalls, none) => (scalls, Except.error ())
  | (scalls, some _) => (scalls ++ [NetCall.positionsGet symbol], Except.ok w.posResp)

/-- `json.dumps(body)` abstracted to an injective rendering of the order
body; it is only used as the opaque signed-body string. -/
def json_dumps (instId tdMode side ordType : String) (sz : ℚ)
    (posSide : Option String) (px : Option ℚ) : String :=
  "instId=" ++ instId ++ ";tdMode=" ++ tdMode ++ ";side=" ++ side ++
  ";ordType=" ++ ordType ++ ";sz=" ++ toString sz ++
  (match posSide with
   | some ps => ";posSide=" ++ ps
   | none => "") ++
  (match px with
   | some p => ";px=" ++ toString p
   | none => "")

/-- `OKXTrader.place_order` (app.py lines 454–505), the effective second
definition: instrument lookup (error result if it fails, no order), size
normalization, account-config lookup (whose signed request can raise),
margin-mode defaulting, body assembly (`posSide` only in hedge mode, `px`
only for a truthy price with a limit order), signing and a single POST. -/
def place_order (cfg : TraderCfg) (w : World) (symbol side : String) (amount : ℚ)
    (price : Option ℚ) (order_type : String) (td_mode : Option String) :
    List NetCall × Except Unit OrderRes :=
  match get_instrument_info w symbol with
  | (icalls, none) => (icalls, Except.ok ⟨"error", "심볼 정보 조회 실패"⟩)
  | (icalls, some info) =>
    let amount := normalize_size amount info.lotSz info.minSz
    match get_account_config cfg.creds w with
    | (acalls, Except.error _) => (icalls ++ acalls, Except.error ())
    | (acalls, Except.ok accCfg) =>
      let pos_mode : Option String :=
        match accCfg with
        | none => some "net_mode"
        | some pm => pm
      let td : String :=
        td_mode.getD (if cfg.default_market == "spot" then "cash" else cfg.default_tdmode)
      let posSide : Option String :=
        if pos_mode == some "long_short_mode" then
          some (if side == "buy" then "long" else "short")
        else none
      let px : Option ℚ :=
        match price with
        | some p => if p ≠ 0 && order_type == "limit" then some p else none
        | none => none
      let body_str := json_dumps symbol td side order_type amount posSide px
      match sign_request cfg.creds w.ts "POST" "/api/v5/trade/order" body_str with
      | (scalls, none) => (icalls ++ acalls ++ scalls, Except.error ())
      | (scalls, some _) =>
        let post := [NetCall.orderPost symbol td side order_type amount posSide px]
        match w.orderResp with
        | Except.error e => (icalls ++ acalls ++ scalls ++ post, Except.ok ⟨"error", e⟩)
        | Except.ok (c, m) => (icalls ++ acalls ++ scalls ++ post, Except.ok ⟨c, m⟩)

/-- Result of `close_position`: the positions response passed through when
its `code` is not `"0"`, the result of the single `place_order` call for
the first matching position, or the no-op success dictionary. -/
inductive CloseRes where
  | passthrough (resp : PositionsResp)
  | orderRes (r : OrderRes)
  | noOp
deriving DecidableEq

/-- The `code` field of the dictionary `close_position` returns; the no-op
dictionary is `{"code": "0", "msg": ...}`. -/
def closeResCode : CloseRes → String
  | CloseRes.passthrough r => r.code
  | CloseRes.orderRes r => r.code
  | CloseRes.noOp => "0"

/-- The `for pos in positions['data']` scan of `close_position`: the first
position whose `instId` equals the symbol and whose size is nonzero. -/
def findClose (symbol : String) : List Position → Option Position
  | [] => none
  | p :: rest =>
      if p.instId == symbol && p.pos != 0 then some p else findClose symbol rest

/-- Output of `close_position`: network-call trace, the `place_order`
invocations made, and the returned result. -/
structure CloseOut where
  calls : List NetCall
  orders : List OrderCall
  result : Except Unit CloseRes

/-- `OKXTrader.close_position(symbol, side)` (app.py lines 434–452), the
effective second definition.  The `side` parameter is accepted but never
read.  The scan `return`s inside the loop, so at most one position — the
first match — is closed, at its exact size and margin mode. -/
def close_position (cfg : TraderCfg) (w : World) (symbol side : String) : CloseOut :=
  match get_positions cfg.creds w symbol with
  | (gcalls, Except.error _) => ⟨gcalls, [], Except.error ()⟩
  | (gcalls, Except.ok positions) =>
    if positions.code != "0" then ⟨gcalls, [], Except.ok (CloseRes.passthrough positions)⟩
    else
      match findClose symbol positions.data with
      | some pos =>
        let close_side := if pos.posSide == "long" then "sell" else "buy"
        let amt := |pos.pos|
        let td := pos.mgnMode.getD cfg.default_tdmode
        let oc : OrderCall := ⟨symbol, close_side, amt, none, "market", some td⟩
        let po := place_order cfg w symbol close_side amt none "market" (some td)
        ⟨gcalls ++ po.1, [oc],
          match po.2 with
          | Except.error e => Except.error e
          | Except.ok r => Except.ok (CloseRes.orderRes r)⟩
      | none => ⟨gcalls, [], Except.ok CloseRes.noOp⟩

/-- Inbound webhook payload: each field may be absent.  Values are typed
(the Python code would additionally fail on non-string/non-numeric
values). -/
structure WebhookData where
  action : Option String
  symbol : Option String
  quantity : Option ℚ
  price : Option ℚ
  order_type : Option String
  message : Option String
  token : Option String

/-- The dictionary `parse_tradingview_webhook` returns on success. -/
structure Parsed where
  action : String
  symbol : String
  quantity : ℚ
  price : Option ℚ
  order_type : String
  message : String
  token : String
deriving DecidableEq

/-- `parse_tradingview_webhook(data)` (app.py lines 514–549), the effective
second definition: requires `action` and `symbol` (otherwise `None` with no
network call), normalizes the symbol, then — before any token check —
queries instrument metadata over the network and normalizes the quantity
when the lookup succeeds. -/
def parse_tradingview_webhook (market : String) (w : World) (d : WebhookData) :
    List NetCall × Option Parsed :=
  match d.action, d.symbol with
  | some act, some sym0 =>
    let sym := normalizeSymbol market sym0
    let quantity := d.quantity.getD 1
    match get_instrument_info w sym with
    | (icalls, some info) =>
      (icalls, some ⟨strToLower act, sym, normalize_size quantity info.lotSz info.minSz,
        d.price, d.order_type.getD "market", d.message.getD "", d.token.getD ""⟩)
    | (icalls, none) =>
      (icalls, some ⟨strToLower act, sym, quantity,
        d.price, d.order_type.getD "market", d.message.getD "", d.token.getD ""⟩)
  | _, _ => ([], none)

/-- Output of one `/webhook` route invocation: network-call trace, the
`place_order` invocations made, and the HTTP status returned. -/
structure HookOut where
  calls : List NetCall
  orders : List OrderCall
  status : Nat

/-- The `/webhook` route (app.py lines 556–587): parse (which performs the
instrument lookup), then reject with 400 on parse failure, 403 on token
validation failure, and only then dispatch to `place_order` or
`close_position`; unhandled exceptions become 500. -/
def webhook (cfg : TraderCfg) (w : World) (env_token : Option String)
    (d : WebhookData) : HookOut :=
  let pcalls := (parse_tradingview_webhook cfg.default_market w d).1
  match (parse_tradingview_webhook cfg.default_market w d).2 with
  | none => ⟨pcalls, [], 400⟩
  | some p =>
    if validate_webhook_token env_token p.token = false then ⟨pcalls, [], 403⟩
    else if p.action == "buy" || p.action == "sell" then
      let po := place_order cfg w p.symbol p.action p.quantity p.price p.order_type none
      ⟨pcalls ++ po.1, [⟨p.symbol, p.action, p.quantity, p.price, p.order_type, none⟩],
        match po.2 with
        | Except.error _ => 500
        | Except.ok r => if r.code == "0" then 200 else 500⟩
    else if p.action == "close" then
      let co := close_position cfg w p.symbol "both"
      ⟨pcalls ++ co.calls, co.orders,
        match co.result with
        | Except.error _ => 500
        | Except.ok r => if closeResCode r == "0" then 200 else 500⟩
    else ⟨pcalls, [], 400⟩

/-- Whether a network call is an order-submission POST. -/
def isOrderPost : NetCall → Bool
  | NetCall.orderPost _ _ _ _ _ _ _ => true
  | _ => false

/-- Structure of `normalize_size`: when `min_size` is a positive integer
multiple of a positive `lot_size`, the result is `m * lot_size` for some
integer `m` that is at least that multiple (hence at least 1). -/
theorem normalize_size_struct (amount lot_size min_size : ℚ) (k : ℕ)
    (hlot : 0 < lot_size) (hmin : 0 < min_size) (hk : min_size = (k : ℚ) * lot_size) :
    ∃ m : ℤ, (k : ℤ) ≤ m ∧ 1 ≤ m ∧
      normalize_size amount lot_size min_size = (m : ℚ) * lot_size := by
  have hk0 : k ≠ 0 := by
    rintro rfl
    rw [hk] at hmin
    simp at hmin
  have hk1n : 1 ≤ k := Nat.one_le_iff_ne_zero.mpr hk0
  set amt := if amount < min_size then min_size else amount with hamt
  have hamtge : min_size ≤ amt := by
    rw [hamt]
    split
    · exact le_refl _
    · exact le_of_not_lt (by assumption)
  have hq : (k : ℚ) ≤ amt / lot_size := by
    rw [le_div_iff₀ hlot, ← hk]
    exact hamtge
  have hq0 : 0 ≤ amt / lot_size := le_trans (Nat.cast_nonneg k) hq
  have hround : roundHalfUp (amt / lot_size) = ⌊amt / lot_size + 1/2⌋ := by
    rw [roundHalfUp, if_pos hq0]
  set m := ⌊amt / lot_size + 1/2⌋ with hm
  have hkm : (k : ℤ) ≤ m := by
    rw [hm]
    apply Int.le_floor.mpr
    push_cast
    linarith
  have hm1 : (1 : ℤ) ≤ m := le_trans (by exact_mod_cast hk1n) hkm
  refine ⟨m, hkm, hm1, ?_⟩
  simp only [normalize_size]
  rw [← hamt, hround, if_neg (by omega : ¬ m ≤ 0)]

/-- Claim C1 (counterexample): with `lotSize = 0.001 > 0`,
`minSize = 0.0014 > 0` and `quantity = 0 ≥ 0`, the claim predicts
`normalize_size ≥ minSize`, but the code returns `0.001 < 0.0014`:
the half-up rounding of the quotient `1.4` undershoots a `minSize` that is
not a multiple of `lotSize`. -/
theorem normalize_size_min_violation :
    (0:ℚ) < 1/1000 ∧ (0:ℚ) < 14/10000 ∧ (0:ℚ) ≤ 0 ∧
    normalize_size 0 (1/1000) (14/10000) < 14/10000 := by
  refine ⟨by norm_num, by norm_num, le_refl 0, ?_⟩
  have hdiv : ((14:ℚ)/10000) / (1/1000) = 7/5 := by norm_num
  have hfl : ⌊(7/5 + 1/2 : ℚ)⌋ = 1 := by
    rw [Int.floor_eq_iff]
    norm_num
  simp only [normalize_size, roundHalfUp]
  rw [if_pos (by norm_num : (0:ℚ) < 14/10000), hdiv,
    if_pos (by norm_num : (0:ℚ) ≤ 7/5), hfl,
    if_neg (by norm_num : ¬ (1:ℤ) ≤ 0)]
  norm_num

/-- Claim C1 (amended): for positive `lotSize`, positive `minSize` that is
an integer multiple of `lotSize`, and `quantity ≥ 0`, the normalized size
is at least `minSize` and is an exact integer multiple of `lotSize`. -/
theorem normalize_size_ge_min_multiple (amount lot_size min_size : ℚ) (k : ℕ)
    (hlot : 0 < lot_size) (hmin : 0 < min_size) (hk : min_size = (k : ℚ) * lot_size)
    (hq : 0 ≤ amount) :
    min_size ≤ normalize_size amount lot_size min_size ∧
    ∃ m : ℤ, normalize_size amount lot_size min_size = (m : ℚ) * lot_size := by
  obtain ⟨m, hkm, hm1, heq⟩ := normalize_size_struct amount lot_size min_size k hlot hmin hk
  refine ⟨?_, m, heq⟩
  rw [heq, hk]
  apply mul_le_mul_of_nonneg_right _ hlot.le
  exact_mod_cast hkm

/-- Witness for the amended C1 at `quantity = 7`, `lotSize = 0.001`,
`minSize = 0.002`. -/
theorem normalize_size_ge_min_multiple_witness :
    ((0:ℚ) < 1/1000 ∧ (0:ℚ) < 2/1000 ∧ (2/1000 : ℚ) = (2 : ℕ) * (1/1000) ∧ (0:ℚ) ≤ 7) ∧
    ((2/1000 : ℚ) ≤ normalize_size 7 (1/1000) (2/1000) ∧
      ∃ m : ℤ, normalize_size 7 (1/1000) (2/1000) = (m : ℚ) * (1/1000)) :=
  ⟨⟨by norm_num, by norm_num, by norm_num, by norm_num⟩,
   normalize_size_ge_min_multiple 7 (1/1000) (2/1000) 2
     (by norm_num) (by norm_num) (by norm_num) (by norm_num)⟩

/-- Claim C7: `normalize_size(0.0035, 0.001, 0.001) = 0.004` (the quotient
`3.5` rounds half-up to `4` lots) and
`normalize_size(0.0003, 0.001, 0.001) = 0.001` (sub-minimum quantity is
clamped to `minSize`). -/
theorem normalize_size_examples :
    normalize_size (35/10000) (1/1000) (1/1000) = 4/1000 ∧
    normalize_size (3/10000) (1/1000) (1/1000) = 1/1000 := by
  constructor
  · have hdiv : ((35:ℚ)/10000) / (1/1000) = 7/2 := by norm_num
    have hfl : ⌊(7/2 + 1/2 : ℚ)⌋ = 4 := by
      rw [Int.floor_eq_iff]
      norm_num
    simp only [normalize_size, roundHalfUp]
    rw [if_neg (by norm_num : ¬ (35:ℚ)/10000 < 1/1000), hdiv,
      if_pos (by norm_num : (0:ℚ) ≤ 7/2), hfl,
      if_neg (by norm_num : ¬ (4:ℤ) ≤ 0)]
    norm_num
  · have hdiv : ((1:ℚ)/1000) / (1/1000) = 1 := by norm_num
    have hfl : ⌊(1 + 1/2 : ℚ)⌋ = 1 := by
      rw [Int.floor_eq_iff]
      norm_num
    simp only [normalize_size, roundHalfUp]
    rw [if_pos (by norm_num : (3:ℚ)/10000 < 1/1000), hdiv,
      if_pos (by norm_num : (0:ℚ) ≤ 1), hfl,
      if_neg (by norm_num : ¬ (1:ℤ) ≤ 0)]
    norm_num

/-- Claim C9: `normalize_size` is idempotent whenever `minSize` is a
positive integer multiple of the positive `lotSize`. -/
theorem normalize_size_idem (amount lot_size min_size : ℚ) (k : ℕ)
    (hlot : 0 < lot_size) (hmin : 0 < min_size) (hk : min_size = (k : ℚ) * lot_size)
    (hq : 0 ≤ amount) :
    normalize_size (normalize_size amount lot_size min_size) lot_size min_size
      = normalize_size amount lot_size min_size := by
  obtain ⟨m, hkm, hm1, heq⟩ := normalize_size_struct amount lot_size min_size k hlot hmin hk
  have hge : min_size ≤ (m : ℚ) * lot_size := by
    rw [hk]
    apply mul_le_mul_of_nonneg_right _ hlot.le
    exact_mod_cast hkm
  have h0 : (0:ℚ) ≤ (m : ℚ) := by exact_mod_cast le_trans zero_le_one hm1
  have hfloor : ⌊(m : ℚ) + 1/2⌋ = m := by
    rw [Int.floor_int_add]
    norm_num
  rw [heq]
  simp only [normalize_size]
  rw [if_neg (not_lt.mpr hge), mul_div_cancel_right₀ _ (ne_of_gt hlot),
    roundHalfUp, if_pos h0, hfloor, if_neg (by omega : ¬ m ≤ 0)]

/-- Witness for C9 at `quantity = 7`, `lotSize = 0.001`, `minSize = 0.002`. -/
theorem normalize_size_idem_witness :
    ((0:ℚ) < 1/1000 ∧ (0:ℚ) < 2/1000 ∧ (2/1000 : ℚ) = (2 : ℕ) * (1/1000) ∧ (0:ℚ) ≤ 7) ∧
    normalize_size (normalize_size 7 (1/1000) (2/1000)) (1/1000) (2/1000)
      = normalize_size 7 (1/1000) (2/1000) :=
  ⟨⟨by norm_num, by norm_num, by norm_num, by norm_num⟩,
   normalize_size_idem 7 (1/1000) (2/1000) 2
     (by norm_num) (by norm_num) (by norm_num) (by norm_num)⟩

/-- Claim C10: with no configured webhook token, exactly the literal
`"test123"` is accepted; and under every configuration the placeholder
`"change-me"` is rejected, even when it equals the expected token. -/
theorem validate_webhook_token_spec :
    (∀ t : String, validate_webhook_token none t = true ↔ t = "test123") ∧
    (∀ env_token : Option String, validate_webhook_token env_token "change-me" = false) := by
  constructor
  · intro t
    constructor
    · intro h
      simp only [validate_webhook_token, Option.getD, Bool.and_eq_true, beq_iff_eq,
        bne_iff_ne] at h
      exact h.1
    · rintro rfl
      rfl
  · intro env_token
    simp [validate_webhook_token]

/-- Claim C6: with default market `swap`, `"BTC-USDT"` maps to
`"BTC-USDT-SWAP"`, `"BTC-USDT-SWAP"` and the sentinel `"NONE"`
(case-insensitively) are unchanged; and the suffix is appended only when it
is not already present and the symbol is not the sentinel. -/
theorem normalizeSymbol_spec :
    normalizeSymbol "swap" "BTC-USDT" = "BTC-USDT-SWAP" ∧
    normalizeSymbol "swap" "BTC-USDT-SWAP" = "BTC-USDT-SWAP" ∧
    normalizeSymbol "swap" "NONE" = "NONE" ∧
    normalizeSymbol "swap" "nOnE" = "nOnE" ∧
    ∀ sym : String, normalizeSymbol "swap" sym ≠ sym →
      strEndsWith sym "-SWAP" = false ∧ strToUpper sym ≠ "NONE" := by
  refine ⟨by decide, by decide, by decide, by decide, ?_⟩
  intro sym h
  by_cases h1 : (sym != "" && strToUpper sym != "NONE") = true
  · by_cases h2 : (("swap" : String) == "swap" && !(strEndsWith sym "-SWAP")) = true
    · simp only [Bool.and_eq_true, bne_iff_ne, ne_eq, beq_iff_eq,
        Bool.not_eq_true'] at h1 h2
      exact ⟨h2.2, h1.2⟩
    · exfalso
      apply h
      unfold normalizeSymbol
      rw [if_pos h1, if_neg h2]
  · exfalso
    apply h
    unfold normalizeSymbol
    rw [if_neg h1]

/-- Witness for C6's universal clause at `sym = "BTC-USDT"`, whose image
under normalization differs from itself. -/
theorem normalizeSymbol_spec_witness :
    strEndsWith "BTC-USDT" "-SWAP" = false ∧ strToUpper "BTC-USDT" ≠ "NONE" :=
  normalizeSymbol_spec.2.2.2.2 "BTC-USDT" (by decide)

/-- Claim C4 (counterexample): the effective `sign_request` does not check
credentials.  With the api key absent (secret and passphrase present),
signing succeeds instead of failing; and with the secret absent, the
failure happens only after the timestamp-fetch network call has been
made. -/
theorem sign_request_no_credential_check :
    (sign_request ⟨none, some "sec", some "pass", "1"⟩ "T" "GET" "/api/v5/account/balance" "").2.isSome
      = true ∧
    (sign_request ⟨some "key", none, some "pass", "1"⟩ "T" "GET" "/api/v5/account/balance" "").2
      = none ∧
    (sign_request ⟨some "key", none, some "pass", "1"⟩ "T" "GET" "/api/v5/account/balance" "").1
      = [NetCall.timeGet] := by
  refine ⟨rfl, rfl, rfl⟩

/-- Claim C4 (amended): the effective `sign_request` performs no credential
pre-check.  The timestamp fetch is issued unconditionally first, and the
call fails (an `AttributeError` on `None.encode()`) exactly when the secret
key is absent; a missing api key or passphrase never causes a failure. -/
theorem sign_request_effective_behavior (c : Creds) (ts method path body : String) :
    (sign_request c ts method path body).1 = [NetCall.timeGet] ∧
    ((sign_request c ts method path body).2 = none ↔ c.secret_key = none) := by
  refine ⟨rfl, ?_⟩
  cases h : c.secret_key <;> simp [sign_request, h]

/-- Claim C5 (counterexample): when the instrument fetch fails, the
effective `get_instrument_info` performs exactly one network attempt — not
the three the claim predicts — before giving up, and the subsequent
`place_order` returns an error with no order POST issued. -/
theorem instrument_lookup_single_attempt :
    (get_instrument_info ⟨"T", none, some (some "net_mode"), ⟨"0", "", []⟩,
        Except.ok ("0", "")⟩ "BTC-USDT-SWAP").1.length = 1 ∧
    ¬ (get_instrument_info ⟨"T", none, some (some "net_mode"), ⟨"0", "", []⟩,
        Except.ok ("0", "")⟩ "BTC-USDT-SWAP").1.length = 3 ∧
    (get_instrument_info ⟨"T", none, some (some "net_mode"), ⟨"0", "", []⟩,
        Except.ok ("0", "")⟩ "BTC-USDT-SWAP").2 = none := by
  refine ⟨rfl, by decide, rfl⟩

/-- Claim C5 (amended): when the metadata fetch for a symbol fails, the
effective instrument resolution makes exactly one fetch attempt (the
effective `get_instrument_info` has no retry loop), `place_order` then
returns the error result `{"code": "error"}` and no order-submission POST
occurs. -/
theorem instrument_failure_no_order (cfg : TraderCfg) (w : World)
    (symbol side : String) (amount : ℚ) (price : Option ℚ)
    (order_type : String) (td_mode : Option String)
    (hfail : w.instResp = none) :
    (place_order cfg w symbol side amount price order_type td_mode).1
      = [NetCall.instrumentsGet symbol] ∧
    (place_order cfg w symbol side amount price order_type td_mode).2
      = Except.ok ⟨"error", "심볼 정보 조회 실패"⟩ ∧
    ∀ c ∈ (place_order cfg w symbol side amount price order_type td_mode).1,
      isOrderPost c = false := by
  have h : place_order cfg w symbol side amount price order_type td_mode
      = ([NetCall.instrumentsGet symbol], Except.ok ⟨"error", "심볼 정보 조회 실패"⟩) := by
    simp only [place_order, get_instrument_info, hfail]
  rw [h]
  refine ⟨rfl, rfl, ?_⟩
  intro c hc
  simp only [List.mem_singleton] at hc
  rw [hc]
  rfl

/-- Witness for the amended C5 in a world whose instrument fetch fails. -/
theorem instrument_failure_no_order_witness :
    (⟨"T", none, some (some "net_mode"), ⟨"0", "", []⟩,
        Except.ok ("0", "")⟩ : World).instResp = none ∧
    ((place_order ⟨⟨some "k", some "s", some "p", "1"⟩, "cross", "swap"⟩
        ⟨"T", none, some (some "net_mode"), ⟨"0", "", []⟩, Except.ok ("0", "")⟩
        "BTC-USDT-SWAP" "buy" 1 none "market" none).1
      = [NetCall.instrumentsGet "BTC-USDT-SWAP"] ∧
     (place_order ⟨⟨some "k", some "s", some "p", "1"⟩, "cross", "swap"⟩
        ⟨"T", none, some (some "net_mode"), ⟨"0", "", []⟩, Except.ok ("0", "")⟩
        "BTC-USDT-SWAP" "buy" 1 none "market" none).2
      = Except.ok ⟨"error", "심볼 정보 조회 실패"⟩ ∧
     ∀ c ∈ (place_order ⟨⟨some "k", some "s", some "p", "1"⟩, "cross", "swap"⟩
        ⟨"T", none, some (some "net_mode"), ⟨"0", "", []⟩, Except.ok ("0", "")⟩
        "BTC-USDT-SWAP" "buy" 1 none "market" none).1,
      isOrderPost c = false) :=
  ⟨rfl, instrument_failure_no_order ⟨⟨some "k", some "s", some "p", "1"⟩, "cross", "swap"⟩
    ⟨"T", none, some (some "net_mode"), ⟨"0", "", []⟩, Except.ok ("0", "")⟩
    "BTC-USDT-SWAP" "buy" 1 none "market" none rfl⟩

/-- The position scan returns `none` when every position for the symbol has
zero size. -/
theorem findClose_eq_none (symbol : String) (l : List Position)
    (h : ∀ p ∈ l, p.instId = symbol → p.pos = 0) : findClose symbol l = none := by
  induction l with
  | nil => rfl
  | cons p rest ih =>
    simp only [findClose]
    rw [if_neg]
    · exact ih (fun q hq hq2 => h q (List.mem_cons_of_mem p hq) hq2)
    · intro hcond
      simp only [Bool.and_eq_true, beq_iff_eq, bne_iff_ne] at hcond
      exact hcond.2 (h p (List.mem_cons_self p rest) hcond.1)

/-- Claim C2 (counterexample): in Hedge mode with one open Long of size 0.5
(cross) and one open Short of size 0.3 (isolated), the effective
`close_position` submits exactly ONE order — a Sell of 0.5 for the Long —
not the two orders the claim predicts: the scan `return`s on the first
matching position. -/
theorem close_position_hedge_both_one_order :
    (close_position ⟨⟨some "k", some "s", some "p", "1"⟩, "cross", "swap"⟩
      ⟨"T", some ⟨1/1000, 1/1000⟩, some (some "long_short_mode"),
        ⟨"0", "", [⟨"BTC-USDT-SWAP", "long", 1/2, some "cross"⟩,
                   ⟨"BTC-USDT-SWAP", "short", 3/10, some "isolated"⟩]⟩,
        Except.ok ("0", "ok")⟩ "BTC-USDT-SWAP" "both").orders
      = [⟨"BTC-USDT-SWAP", "sell", 1/2, none, "market", some "cross"⟩] ∧
    ¬ (close_position ⟨⟨some "k", some "s", some "p", "1"⟩, "cross", "swap"⟩
      ⟨"T", some ⟨1/1000, 1/1000⟩, some (some "long_short_mode"),
        ⟨"0", "", [⟨"BTC-USDT-SWAP", "long", 1/2, some "cross"⟩,
                   ⟨"BTC-USDT-SWAP", "short", 3/10, some "isolated"⟩]⟩,
        Except.ok ("0", "ok")⟩ "BTC-USDT-SWAP" "both").orders.length = 2 := by
  have habs : |(1/2 : ℚ)| = 1/2 := abs_of_pos (by norm_num)
  have hfc : findClose "BTC-USDT-SWAP"
      [⟨"BTC-USDT-SWAP", "long", 1/2, some "cross"⟩,
       ⟨"BTC-USDT-SWAP", "short", 3/10, some "isolated"⟩]
      = some ⟨"BTC-USDT-SWAP", "long", 1/2, some "cross"⟩ := by
    simp only [findClose]
    rw [if_pos]
    simp only [Bool.and_eq_true, beq_iff_eq, bne_iff_ne]
    norm_num
  constructor
  · simp only [close_position, get_positions, sign_request]
    rw [hfc]
    simp [habs]
  · simp only [close_position, get_positions, sign_request]
    rw [hfc]
    simp [habs]

/-- Claim C2 (amended): in the situation of the claim — Hedge mode, one
open Long of size 0.5 with margin mode `m1`, one open Short of size 0.3
with margin mode `m2` — the effective `close_position` produces exactly one
order request: a Sell of size 0.5 carrying the Long position's margin mode
`m1`; the loop returns after the first matching position, so the Short leg
is never closed. -/
theorem close_position_hedge_both_first_leg (m1 m2 : String) :
    (close_position ⟨⟨some "k", some "s", some "p", "1"⟩, "cross", "swap"⟩
      ⟨"T", some ⟨1/1000, 1/1000⟩, some (some "long_short_mode"),
        ⟨"0", "", [⟨"BTC-USDT-SWAP", "long", 1/2, some m1⟩,
                   ⟨"BTC-USDT-SWAP", "short", 3/10, some m2⟩]⟩,
        Except.ok ("0", "ok")⟩ "BTC-USDT-SWAP" "both").orders
      = [⟨"BTC-USDT-SWAP", "sell", 1/2, none, "market", some m1⟩] := by
  have habs : |(1/2 : ℚ)| = 1/2 := abs_of_pos (by norm_num)
  have hfc : findClose "BTC-USDT-SWAP"
      [⟨"BTC-USDT-SWAP", "long", 1/2, some m1⟩,
       ⟨"BTC-USDT-SWAP", "short", 3/10, some m2⟩]
      = some ⟨"BTC-USDT-SWAP", "long", 1/2, some m1⟩ := by
    simp only [findClose]
    rw [if_pos]
    simp only [Bool.and_eq_true, beq_iff_eq, bne_iff_ne]
    norm_num
  simp only [close_position, get_positions, sign_request]
  rw [hfc]
  simp [habs]

/-- Claim C8 (counterexample): the requested closing scope is ignored by the
effective `close_position`.  Requesting scope Long while only a nonzero
Short position is open — so no position matches the requested scope — the
claim predicts a no-op success with no order, but the code closes the Short
with a Buy of its size and returns that order's result. -/
theorem close_position_scope_ignored :
    (close_position ⟨⟨some "k", some "s", some "p", "1"⟩, "cross", "swap"⟩
      ⟨"T", some ⟨1/1000, 1/1000⟩, some (some "long_short_mode"),
        ⟨"0", "", [⟨"BTC-USDT-SWAP", "short", 3/10, some "cross"⟩]⟩,
        Except.ok ("0", "ok")⟩ "BTC-USDT-SWAP" "long").orders
      = [⟨"BTC-USDT-SWAP", "buy", 3/10, none, "market", some "cross"⟩] ∧
    (close_position ⟨⟨some "k", some "s", some "p", "1"⟩, "cross", "swap"⟩
      ⟨"T", some ⟨1/1000, 1/1000⟩, some (some "long_short_mode"),
        ⟨"0", "", [⟨"BTC-USDT-SWAP", "short", 3/10, some "cross"⟩]⟩,
        Except.ok ("0", "ok")⟩ "BTC-USDT-SWAP" "long").result
      ≠ Except.ok CloseRes.noOp := by
  have habs : |(3/10 : ℚ)| = 3/10 := abs_of_pos (by norm_num)
  have hfc : findClose "BTC-USDT-SWAP" [⟨"BTC-USDT-SWAP", "short", 3/10, some "cross"⟩]
      = some ⟨"BTC-USDT-SWAP", "short", 3/10, some "cross"⟩ := by
    simp only [findClose]
    rw [if_pos]
    simp only [Bool.and_eq_true, beq_iff_eq, bne_iff_ne]
    norm_num
  constructor
  · simp only [close_position, get_positions, sign_request]
    rw [hfc]
    simp [habs]
  · simp only [close_position, get_positions, sign_request]
    rw [hfc]
    simp [habs, place_order, get_instrument_info, get_account_config, sign_request]

/-- Claim C8 (amended): whenever the position query succeeds (`code "0"`)
and every position for the symbol has zero size, the effective
`close_position` returns the no-op success result (whose code is `"0"`)
and submits no order; the requested scope argument plays no role. -/
theorem close_position_noop_when_flat (cfg : TraderCfg) (w : World)
    (symbol side s : String)
    (hs : cfg.creds.secret_key = some s) (hcode : w.posResp.code = "0")
    (hflat : ∀ p ∈ w.posResp.data, p.instId = symbol → p.pos = 0) :
    (close_position cfg w symbol side).result = Except.ok CloseRes.noOp ∧
    (close_position cfg w symbol side).orders = [] ∧
    closeResCode CloseRes.noOp = "0" := by
  have hfc := findClose_eq_none symbol w.posResp.data hflat
  refine ⟨?_, ?_, rfl⟩ <;>
  · simp only [close_position, get_positions, sign_request, hs]
    rw [hcode, hfc]
    simp

/-- Witness for the amended C8: an empty position list with a successful
query yields the no-op success and no orders. -/
theorem close_position_noop_when_flat_witness :
    ((⟨⟨some "k", some "s", some "p", "1"⟩, "cross", "swap"⟩ : TraderCfg).creds.secret_key
        = some "s" ∧
     (⟨"T", none, none, ⟨"0", "", []⟩, Except.ok ("0", "ok")⟩ : World).posResp.code = "0") ∧
    ((close_position ⟨⟨some "k", some "s", some "p", "1"⟩, "cross", "swap"⟩
        ⟨"T", none, none, ⟨"0", "", []⟩, Except.ok ("0", "ok")⟩
        "BTC-USDT-SWAP" "both").result = Except.ok CloseRes.noOp ∧
     (close_position ⟨⟨some "k", some "s", some "p", "1"⟩, "cross", "swap"⟩
        ⟨"T", none, none, ⟨"0", "", []⟩, Except.ok ("0", "ok")⟩
        "BTC-USDT-SWAP" "both").orders = [] ∧
     closeResCode CloseRes.noOp = "0") :=
  ⟨⟨rfl, rfl⟩,
   close_position_noop_when_flat ⟨⟨some "k", some "s", some "p", "1"⟩, "cross", "swap"⟩
     ⟨"T", none, none, ⟨"0", "", []⟩, Except.ok ("0", "ok")⟩
     "BTC-USDT-SWAP" "both" "s" rfl rfl (by intro p hp; simp at hp)⟩

/-- The webhook translator's network trace never contains an
order-submission POST: parsing performs (at most) one public instrument
metadata GET. -/
theorem parse_calls_no_orderPost (market : String) (w : World) (d : WebhookData) :
    ∀ c ∈ (parse_tradingview_webhook market w d).1, isOrderPost c = false := by
  intro c hc
  rcases d with ⟨act, sym, q, pr, ot, msg, tok⟩
  cases act with
  | none => simp [parse_tradingview_webhook] at hc
  | some a =>
    cases sym with
    | none => simp [parse_tradingview_webhook] at hc
    | some s =>
      cases hir : w.instResp with
      | some info =>
        simp only [parse_tradingview_webhook, get_instrument_info, hir,
          List.mem_singleton] at hc
        subst hc
        rfl
      | none =>
        simp only [parse_tradingview_webhook, get_instrument_info, hir,
          List.mem_singleton] at hc
        subst hc
        rfl

/-- Claim C3 (counterexample): a signal whose token does not match is
rejected with 403, but only after an outbound network call — the public
instrument metadata GET performed inside `parse_tradingview_webhook` before
the token is checked — so the rejection does not precede every outbound
network call. -/
theorem webhook_bad_token_network_call :
    (webhook ⟨⟨some "k", some "s", some "p", "1"⟩, "cross", "swap"⟩
      ⟨"T", none, none, ⟨"0", "", []⟩, Except.ok ("0", "ok")⟩ none
      ⟨some "buy", some "BTC-USDT", some 1, none, none, none, some "wrong"⟩).status = 403 ∧
    (webhook ⟨⟨some "k", some "s", some "p", "1"⟩, "cross", "swap"⟩
      ⟨"T", none, none, ⟨"0", "", []⟩, Except.ok ("0", "ok")⟩ none
      ⟨some "buy", some "BTC-USDT", some 1, none, none, none, some "wrong"⟩).calls
      = [NetCall.instrumentsGet "BTC-USDT-SWAP"] ∧
    (webhook ⟨⟨some "k", some "s", some "p", "1"⟩, "cross", "swap"⟩
      ⟨"T", none, none, ⟨"0", "", []⟩, Except.ok ("0", "ok")⟩ none
      ⟨some "buy", some "BTC-USDT", some 1, none, none, none, some "wrong"⟩).calls
      ≠ [] := by
  refine ⟨rfl, rfl, by decide⟩

/-- Claim C3 (amended): a signal that parses but carries an invalid token is
rejected with 403 and zero order-submission calls occur for it — no
`place_order` invocation and no order POST in the network trace — but the
public instrument metadata GET inside parsing may already have happened
before the token check. -/
theorem webhook_bad_token_no_orders (cfg : TraderCfg) (w : World)
    (env_token : Option String) (d : WebhookData) (p : Parsed)
    (hp : (parse_tradingview_webhook cfg.default_market w d).2 = some p)
    (ht : validate_webhook_token env_token p.token = false) :
    (webhook cfg w env_token d).status = 403 ∧
    (webhook cfg w env_token d).orders = [] ∧
    ∀ c ∈ (webhook cfg w env_token d).calls, isOrderPost c = false := by
  have hw : webhook cfg w env_token d
      = ⟨(parse_tradingview_webhook cfg.default_market w d).1, [], 403⟩ := by
    simp [webhook, hp, ht]
  rw [hw]
  exact ⟨rfl, rfl, parse_calls_no_orderPost cfg.default_market w d⟩

/-- Witness for the amended C3 at a concrete bad-token signal. -/
theorem webhook_bad_token_no_orders_witness :
    ((parse_tradingview_webhook "swap"
        ⟨"T", none, none, ⟨"0", "", []⟩, Except.ok ("0", "ok")⟩
        ⟨some "buy", some "BTC-USDT", some 1, none, none, none, some "wrong"⟩).2
      = some ⟨"buy", "BTC-USDT-SWAP", 1, none, "market", "", "wrong"⟩ ∧
     validate_webhook_token none "wrong" = false) ∧
    ((webhook ⟨⟨some "k", some "s", some "p", "1"⟩, "cross", "swap"⟩
        ⟨"T", none, none, ⟨"0", "", []⟩, Except.ok ("0", "ok")⟩ none
        ⟨some "buy", some "BTC-USDT", some 1, none, none, none, some "wrong"⟩).status = 403 ∧
     (webhook ⟨⟨some "k", some "s", some "p", "1"⟩, "cross", "swap"⟩
        ⟨"T", none, none, ⟨"0", "", []⟩, Except.ok ("0", "ok")⟩ none
        ⟨some "buy", some "BTC-USDT", some 1, none, none, none, some "wrong"⟩).orders = [] ∧
     ∀ c ∈ (webhook ⟨⟨some "k", some "s", some "p", "1"⟩, "cross", "swap"⟩
        ⟨"T", none, none, ⟨"0", "", []⟩, Except.ok ("0", "ok")⟩ none
        ⟨some "buy", some "BTC-USDT", some 1, none, none, none, some "wrong"⟩).calls,
       isOrderPost c = false) :=
  ⟨⟨rfl, rfl⟩,
   webhook_bad_token_no_orders ⟨⟨some "k", some "s", some "p", "1"⟩, "cross", "swap"⟩
     ⟨"T", none, none, ⟨"0", "", []⟩, Except.ok ("0", "ok")⟩ none
     ⟨some "buy", some "BTC-USDT", some 1, none, none, none, some "wrong"⟩
     ⟨"buy", "BTC-USDT-SWAP", 1, none, "market", "", "wrong"⟩ rfl rfl⟩
